import Mathlib

/-!
Shallow embedding of `src/http.go` from the `zovenor/http_tg_config`
repository: a generic HTTP endpoint exposing a live configuration value of
type `T` (with collaborator-supplied `Validate`, `Update`, `CreateNew`)
over a configuration route and a JSON-Schema route.

The Go handler is generic over `T Config[T]`; here the configuration value
type is a Lean type parameter `α`, and the collaborator-supplied methods
together with the JSON (de)serialization behaviour at type `α` are
collected in a `ConfigOps α` record.  The handler functions `serveConfig`
and `serveSchema` are translated branch by branch from the source; the
`StepResult` record captures everything one request observably does: the
HTTP response, the live configuration value afterwards, the log entries
emitted, the list of arguments `Update` was invoked with, and (for
bookkeeping of the state machine) the committed value when an update
succeeded.
-/

/-- A log entry emitted through `s.logger` (`slog.Warn` / `slog.Info`). -/
inductive LogEntry where
  | warn (msg : String)
  | info (msg : String)
deriving DecidableEq, Repr

/-- An inbound HTTP request as far as the handler inspects it: `r.Method`
and the bytes of `r.Body`. -/
structure Request where
  method : String
  body : String
deriving DecidableEq, Repr

/-- The response written to the `http.ResponseWriter`.  `status = none`
means the handler never called `WriteHeader` nor `http.Error`, in which
case Go's `net/http` defaults the status to `200 OK` when the body (or
nothing) is written. -/
structure HttpResponse where
  status : Option Nat
  body : String
deriving DecidableEq, Repr

/-- The status code the client sees: the explicitly written one, or the
`net/http` default `200`. -/
def HttpResponse.effective (r : HttpResponse) : Nat :=
  r.status.getD 200

/-- Go's `http.Error(w, msg, code)`: sets the status code and writes the
message followed by a newline. -/
def httpError (msg : String) (code : Nat) : HttpResponse :=
  { status := some code, body := msg ++ "\n" }

/-- The collaborator-supplied capabilities of the configuration type `T`
(interface `Config[T]` in `src/http.go`) together with the behaviour of
the JSON library at that type:

* `validate c`: `c.Validate()`; `some e` is a returned error `e`, `none`
  is success.
* `update c v`: `c.Update(v)` where `c` is the live value.  In Go the
  receiver is mutated in place, so the call both transforms the live
  value and may return an error; it is modelled as the pair
  (live value afterwards, optional error).  What a *failing* `Update`
  leaves behind is collaborator-defined, so no relation between the two
  components is imposed here.
* `createNew c`: `c.CreateNew()`, a fresh decode target isolated from the
  live value.
* `decode t b`: `json.NewDecoder(r.Body).Decode(t)` for a fresh pointer
  target `t` and body `b` — the decoded value or a decode error.
* `marshal c`: `json.Marshal(c)`.
* `schemaDoc`: `jsonschema.Reflect(s.cfg).MarshalJSON()`.  The `Reflect`
  call walks `reflect.TypeOf(s.cfg)`: it depends only on the Go type `T`
  the handler is instantiated at, never on the current field values, so
  for a fixed instantiation it is a constant of the instantiation and is
  modelled as a per-`ConfigOps` constant. -/
structure ConfigOps (α : Type) where
  validate : α → Option String
  update : α → α → α × Option String
  createNew : α → α
  decode : α → String → Except String α
  marshal : α → Except String String
  schemaDoc : Except String String

/-- Everything observable about one handler invocation: the response, the
live configuration afterwards, the emitted log entries, the arguments of
every `Update` invocation, and the committed live value when the request
was a successfully applied POST (`applied = none` otherwise). -/
structure StepResult (α : Type) where
  resp : HttpResponse
  cfg : α
  logs : List LogEntry
  updateCalls : List α
  applied : Option α
deriving Repr

/-- Embedding of `configHandler.serveConfig` (src/http.go lines 69-110,
the variant with logger and `CreateNew`): a method switch with a GET
branch (marshal and write the live value), a POST branch
(decode into a fresh instance, validate, update: validate before commit),
an OPTIONS branch (plain return), and a default branch (405). -/
def serveConfig {α : Type} (ops : ConfigOps α) (cfg : α) (r : Request) :
    StepResult α :=
  if r.method = "GET" then
    match ops.marshal cfg with
    | Except.error e =>
        let msg := "failed to marshal config: " ++ e
        { resp := httpError msg 500, cfg := cfg, logs := [LogEntry.warn msg],
          updateCalls := [], applied := none }
    | Except.ok bytes =>
        { resp := { status := some 200, body := bytes }, cfg := cfg,
          logs := [LogEntry.info bytes], updateCalls := [], applied := none }
  else if r.method = "POST" then
    match ops.decode (ops.createNew cfg) r.body with
    | Except.error e =>
        let msg := "failed to decode request body: " ++ e
        { resp := httpError msg 400, cfg := cfg, logs := [LogEntry.warn msg],
          updateCalls := [], applied := none }
    | Except.ok newCfg =>
        match ops.validate newCfg with
        | some e =>
            let msg := "failed to validate request body: " ++ e
            { resp := httpError msg 400, cfg := cfg,
              logs := [LogEntry.warn msg], updateCalls := [], applied := none }
        | none =>
            match ops.update cfg newCfg with
            | (cfg', some e) =>
                let msg := "failed to update config: " ++ e
                { resp := httpError msg 500, cfg := cfg',
                  logs := [LogEntry.warn msg], updateCalls := [newCfg],
                  applied := none }
            | (cfg', none) =>
                { resp := { status := some 200, body := "" }, cfg := cfg',
                  logs := [LogEntry.info "config"], updateCalls := [newCfg],
                  applied := some cfg' }
  else if r.method = "OPTIONS" then
    { resp := { status := none, body := "" }, cfg := cfg, logs := [],
      updateCalls := [], applied := none }
  else
    { resp := { status := some 405, body := "" }, cfg := cfg, logs := [],
      updateCalls := [], applied := none }

/-- Embedding of `configHandler.serveSchema` (src/http.go lines 57-67).
The request parameter is ignored by the Go code (`_ *http.Request`):
the schema is reflected and written for any method.  On success only
`w.Write` runs, so no explicit status is set. -/
def serveSchema {α : Type} (ops : ConfigOps α) (cfg : α) (_ : Request) :
    StepResult α :=
  match ops.schemaDoc with
  | Except.error e =>
      let msg := "failed to marshal schema: " ++ e
      { resp := httpError msg 500, cfg := cfg, logs := [LogEntry.warn msg],
        updateCalls := [], applied := none }
  | Except.ok bytes =>
      { resp := { status := none, body := bytes }, cfg := cfg, logs := [],
        updateCalls := [], applied := none }

/-- Embedding of the `serveConfig` variants at src/http.go lines 166-197
and 261-296, whose POST branch declares `var newCfg T` and passes `newCfg`
to `decoder.Decode` by value.  Go's `json.Decoder.Decode` returns an
`*InvalidUnmarshalError` whenever its argument is not a non-nil pointer;
`newCfg` is a zero-valued `T`, hence either a non-pointer value or a nil
pointer, so the decode call fails for every request body independent of
its contents.  `invalidTargetErr` stands for that error's text. -/
def serveConfigZeroValue {α : Type} (ops : ConfigOps α)
    (invalidTargetErr : String) (cfg : α) (r : Request) : StepResult α :=
  if r.method = "GET" then
    match ops.marshal cfg with
    | Except.error e =>
        let msg := "failed to marshal config: " ++ e
        { resp := httpError msg 500, cfg := cfg, logs := [],
          updateCalls := [], applied := none }
    | Except.ok bytes =>
        { resp := { status := some 200, body := bytes }, cfg := cfg,
          logs := [], updateCalls := [], applied := none }
  else if r.method = "POST" then
    let msg := "failed to decode request body: " ++ invalidTargetErr
    { resp := httpError msg 400, cfg := cfg, logs := [],
      updateCalls := [], applied := none }
  else if r.method = "OPTIONS" then
    { resp := { status := none, body := "" }, cfg := cfg, logs := [],
      updateCalls := [], applied := none }
  else
    { resp := { status := some 405, body := "" }, cfg := cfg, logs := [],
      updateCalls := [], applied := none }

/-- A `*slog.Logger` reference: the process-wide default (`slog.Default()`)
or an explicitly supplied logger. -/
inductive Logger where
  | dflt
  | custom (id : Nat)
deriving DecidableEq, Repr

/-- Which handler function a route is bound to. -/
inductive RouteTarget where
  | config
  | schema
deriving DecidableEq, Repr

/-- An `http.ServeMux`: the ordered list of `(pattern, handler)`
registrations made through `HandleFunc`. -/
structure Mux where
  routes : List (String × RouteTarget)
deriving DecidableEq, Repr

/-- `http.NewServeMux()`: a mux with no registrations. -/
def emptyMux : Mux := { routes := [] }

/-- `mux.HandleFunc(pat, h)`: registers one more handler. -/
def Mux.handleFunc (m : Mux) (pat : String) (t : RouteTarget) : Mux :=
  { routes := m.routes ++ [(pat, t)] }

/-- The `configHandler` struct: logger, the embedded `http.Handler`
(the mux), and the live configuration value. -/
structure ConfigHandlerStruct (α : Type) where
  logger : Logger
  handler : Mux
  cfg : α
deriving Repr

/-- Embedding of `NewConfigHandler` (src/http.go lines 36-55): a nil
logger is replaced by `slog.Default()`; a fresh mux is created and then
discarded if a parent mux was supplied; the two routes are registered on
the chosen mux, which becomes the returned handler's embedded
`http.Handler`. -/
def NewConfigHandler {α : Type} (cfg : α) (parentMux : Option Mux)
    (logger : Option Logger) : ConfigHandlerStruct α :=
  let logger := match logger with
    | none => Logger.dflt
    | some l => l
  let mux := emptyMux
  let mux := match parentMux with
    | none => mux
    | some m => m
  let mux := mux.handleFunc "/config/" RouteTarget.config
  let mux := mux.handleFunc "/config-schema/" RouteTarget.schema
  { logger := logger, handler := mux, cfg := cfg }

/-- One step of the request-sequence state machine: thread the live value
through `serveConfig` and append the committed value, if any, to the
trace of successful applications. -/
def runStep {α : Type} (ops : ConfigOps α) (p : α × List α) (r : Request) :
    α × List α :=
  let res := serveConfig ops p.1 r
  (res.cfg, p.2 ++ res.applied.toList)

/-- Run a sequence of requests against the configuration route, starting
from the initial value: returns the final live value and the ordered
trace of successfully committed values. -/
def run {α : Type} (ops : ConfigOps α) (init : α) (rs : List Request) :
    α × List α :=
  rs.foldl (runStep ops) (init, [])

/-- A concrete well-behaved collaborator over `Nat`, used to instantiate
theorems at concrete inputs: odd values fail validation, `Update`
replaces the live value by the candidate and never fails, decoding fails
exactly on the body `"bad"` and otherwise yields the body's length. -/
def exOps : ConfigOps Nat where
  validate := fun v => if v % 2 = 1 then some "odd" else none
  update := fun _ v => (v, none)
  createNew := fun _ => 0
  decode := fun t b =>
    if b = "bad" then Except.error "bad json" else Except.ok (t + b.length)
  marshal := fun n => Except.ok (toString n)
  schemaDoc := Except.ok "schemadoc"

/-- A collaborator whose `Update` mutates the live value to `99` and then
reports failure: legal under the `Config[T]` interface, which promises
nothing about the receiver's state when `Update` returns an error. -/
def exBadOps : ConfigOps Nat where
  validate := fun _ => none
  update := fun _ _ => (99, some "boom")
  createNew := fun _ => 0
  decode := fun _ _ => Except.ok 7
  marshal := fun n => Except.ok (toString n)
  schemaDoc := Except.ok "schemadoc"

/-- A collaborator whose marshalling, schema marshalling and `Update` all
fail, leaving the live value unchanged on update failure. -/
def exErrOps : ConfigOps Nat where
  validate := fun _ => none
  update := fun c _ => (c, some "uerr")
  createNew := fun _ => 0
  decode := fun _ _ => Except.ok 4
  marshal := fun _ => Except.error "merr"
  schemaDoc := Except.error "serr"

/-- C9: an OPTIONS request on the configuration route writes no body and
performs no explicit status manipulation (the response status defaults to
`200 OK`), and the live configuration is unchanged with `Update` never
invoked. -/
theorem options_default_success_no_body {α : Type} (ops : ConfigOps α)
    (cfg : α) (b : String) :
    (serveConfig ops cfg { method := "OPTIONS", body := b }).resp.status = none ∧
    (serveConfig ops cfg { method := "OPTIONS", body := b }).resp.body = "" ∧
    (serveConfig ops cfg { method := "OPTIONS", body := b }).resp.effective = 200 ∧
    (serveConfig ops cfg { method := "OPTIONS", body := b }).cfg = cfg ∧
    (serveConfig ops cfg { method := "OPTIONS", body := b }).updateCalls = [] :=
  ⟨rfl, rfl, rfl, rfl, rfl⟩

/-- C7: the schema route's response is the same for any two live
configuration values of the same configuration type and for any two
requests (the handler ignores the request), so repeated GETs with the
type unchanged return the identical document; the live value is also
left unchanged. -/
theorem schema_response_value_independent {α : Type} (ops : ConfigOps α)
    (c c' : α) (r r' : Request) :
    (serveSchema ops c r).resp = (serveSchema ops c' r').resp ∧
    (serveSchema ops c r).cfg = c := by
  cases h : ops.schemaDoc <;> simp [serveSchema, h]

/-- C8: in the variants that decode into a zero-valued `T` passed by
value, every POST fails the decode step and returns 400 with the
decoder's error text, and no request of any method ever changes the live
configuration or invokes `Update`. -/
theorem zero_value_decode_target_always_rejects {α : Type} (ops : ConfigOps α)
    (e : String) (cfg : α) (b : String) :
    (serveConfigZeroValue ops e cfg { method := "POST", body := b }).resp =
      httpError ("failed to decode request body: " ++ e) 400 ∧
    ∀ r : Request, (serveConfigZeroValue ops e cfg r).cfg = cfg ∧
      (serveConfigZeroValue ops e cfg r).updateCalls = [] := by
  refine ⟨rfl, ?_⟩
  intro r
  unfold serveConfigZeroValue
  repeat' split
  all_goals simp

/-- C10: construction stores the initial value as the live configuration,
replaces an absent logger by the process-wide default, and registers
exactly the two routes — configuration and schema — on the supplied
router when one is given and on a newly created router otherwise. -/
theorem new_config_handler_registers_routes {α : Type} (cfg : α)
    (pm : Option Mux) (lg : Option Logger) :
    (NewConfigHandler cfg pm lg).cfg = cfg ∧
    (NewConfigHandler cfg pm lg).logger = lg.getD Logger.dflt ∧
    (NewConfigHandler cfg pm lg).handler.routes =
      (pm.getD emptyMux).routes ++
        [("/config/", RouteTarget.config),
         ("/config-schema/", RouteTarget.schema)] := by
  cases pm <;> cases lg <;>
    simp [NewConfigHandler, Mux.handleFunc, emptyMux]

/-- C4: when the live configuration marshals to `s`, a GET on the
configuration route responds `200 OK` with body `s` and leaves the live
value unchanged; in particular a GET immediately after construction
returns exactly the JSON encoding of the initial value. -/
theorem get_returns_marshalled_config {α : Type} (ops : ConfigOps α)
    (cfg : α) (b s : String) (pm : Option Mux) (lg : Option Logger)
    (hm : ops.marshal cfg = Except.ok s) :
    (serveConfig ops cfg { method := "GET", body := b }).resp =
      { status := some 200, body := s } ∧
    (serveConfig ops cfg { method := "GET", body := b }).cfg = cfg ∧
    (serveConfig ops (NewConfigHandler cfg pm lg).cfg
        { method := "GET", body := b }).resp =
      { status := some 200, body := s } := by
  cases pm <;> cases lg <;>
    simp [serveConfig, NewConfigHandler, hm]

/-- C4 witness: at the concrete collaborator `exOps` with live value `5`,
a GET returns `200` with body `"5"`. -/
theorem get_returns_marshalled_config_witness :
    (serveConfig exOps 5 { method := "GET", body := "" }).resp =
      { status := some 200, body := "5" } :=
  (get_returns_marshalled_config exOps 5 "" "5" none none rfl).1

/-- C1: a POST whose body fails to decode into the fresh instance, or
whose decoded candidate fails `Validate`, responds `400 Bad Request` with
the error text, leaves the live configuration unchanged, and never
invokes `Update`. -/
theorem post_reject_is_side_effect_free {α : Type} (ops : ConfigOps α)
    (cfg : α) (body e : String) :
    (ops.decode (ops.createNew cfg) body = Except.error e →
      (serveConfig ops cfg { method := "POST", body := body }).resp =
        httpError ("failed to decode request body: " ++ e) 400 ∧
      (serveConfig ops cfg { method := "POST", body := body }).cfg = cfg ∧
      (serveConfig ops cfg { method := "POST", body := body }).updateCalls = []) ∧
    (∀ v, ops.decode (ops.createNew cfg) body = Except.ok v →
      ops.validate v = some e →
      (serveConfig ops cfg { method := "POST", body := body }).resp =
        httpError ("failed to validate request body: " ++ e) 400 ∧
      (serveConfig ops cfg { method := "POST", body := body }).cfg = cfg ∧
      (serveConfig ops cfg { method := "POST", body := body }).updateCalls = []) := by
  constructor
  · intro h
    simp [serveConfig, h]
  · intro v h hv
    simp [serveConfig, h, hv]

/-- C1 witness: at `exOps` with live value `5`, the body `"bad"` fails
decoding and the body `"x"` decodes to the invalid candidate `1`; both
leave the live value at `5` with no `Update` call. -/
theorem post_reject_witness :
    (serveConfig exOps 5 { method := "POST", body := "bad" }).cfg = 5 ∧
    (serveConfig exOps 5 { method := "POST", body := "x" }).updateCalls = [] :=
  ⟨((post_reject_is_side_effect_free exOps 5 "bad" "bad json").1 rfl).2.1,
   ((post_reject_is_side_effect_free exOps 5 "x" "odd").2 1 rfl rfl).2.2⟩

/-- C2: a POST whose body decodes to a candidate that passes `Validate`
invokes `Update` with that candidate exactly once; when `Update`
succeeds the response is `200 OK` with an empty body, the live value
becomes `Update`'s result, and a subsequent GET returns the JSON
encoding of that applied value (the post-update state, never the
pre-update one). -/
theorem post_valid_payload_commits_once {α : Type} (ops : ConfigOps α)
    (cfg v : α) (body : String)
    (hdec : ops.decode (ops.createNew cfg) body = Except.ok v)
    (hval : ops.validate v = none) :
    (serveConfig ops cfg { method := "POST", body := body }).updateCalls = [v] ∧
    ((ops.update cfg v).2 = none →
      (serveConfig ops cfg { method := "POST", body := body }).resp =
        { status := some 200, body := "" } ∧
      (serveConfig ops cfg { method := "POST", body := body }).cfg =
        (ops.update cfg v).1 ∧
      ∀ b s, ops.marshal (ops.update cfg v).1 = Except.ok s →
        (serveConfig ops
            (serveConfig ops cfg { method := "POST", body := body }).cfg
            { method := "GET", body := b }).resp =
          { status := some 200, body := s }) := by
  rcases hu : ops.update cfg v with ⟨c', err⟩
  cases err with
  | some e =>
      refine ⟨?_, ?_⟩
      · simp [serveConfig, hdec, hval, hu]
      · intro h2
        simp at h2
  | none =>
      refine ⟨?_, fun _ => ⟨?_, ?_, ?_⟩⟩
      · simp [serveConfig, hdec, hval, hu]
      · simp [serveConfig, hdec, hval, hu]
      · simp [serveConfig, hdec, hval, hu]
      · intro b s hs
        simp only [] at hs
        simp [serveConfig, hdec, hval, hu] at hs ⊢
        simp [hs]

/-- C2 witness: at `exOps` with live value `5`, the body `"xx"` decodes
to the valid candidate `2`; `Update` is called once with `2`, the
response is `200` empty, and the following GET returns `"2"`. -/
theorem post_valid_payload_commits_once_witness :
    (serveConfig exOps 5 { method := "POST", body := "xx" }).updateCalls = [2] ∧
    (serveConfig exOps 5 { method := "POST", body := "xx" }).resp =
      { status := some 200, body := "" } ∧
    (serveConfig exOps
        (serveConfig exOps 5 { method := "POST", body := "xx" }).cfg
        { method := "GET", body := "" }).resp =
      { status := some 200, body := "2" } :=
  ⟨(post_valid_payload_commits_once exOps 5 2 "xx" rfl rfl).1,
   ((post_valid_payload_commits_once exOps 5 2 "xx" rfl rfl).2 rfl).1,
   ((post_valid_payload_commits_once exOps 5 2 "xx" rfl rfl).2 rfl).2.2 "" "2" rfl⟩

/-- C5 counterexample: `serveSchema` never inspects the request method
(`_ *http.Request` in the source), so a DELETE on the schema route is
answered with the schema document and the default `200` status — not
with `405 Method Not Allowed` and an empty body as the claim states. -/
theorem schema_route_serves_delete_counterexample :
    (serveSchema exOps 5 { method := "DELETE", body := "" }).resp.status ≠
      some 405 ∧
    (serveSchema exOps 5 { method := "DELETE", body := "" }).resp.effective
      = 200 ∧
    (serveSchema exOps 5 { method := "DELETE", body := "" }).resp.body =
      "schemadoc" := by
  refine ⟨?_, rfl, rfl⟩
  intro h
  cases h

/-- C5 amended: a request whose method is none of GET, POST or OPTIONS
gets `405 Method Not Allowed` with no body on the configuration route
and leaves the live configuration unchanged with no `Update` call; the
schema route, by contrast, ignores the method entirely and answers any
method exactly as it answers a GET, also leaving the live value
unchanged. -/
theorem method_not_allowed_config_route_only {α : Type} (ops : ConfigOps α)
    (cfg : α) (r : Request)
    (h1 : r.method ≠ "GET") (h2 : r.method ≠ "POST")
    (h3 : r.method ≠ "OPTIONS") :
    (serveConfig ops cfg r).resp = { status := some 405, body := "" } ∧
    (serveConfig ops cfg r).cfg = cfg ∧
    (serveConfig ops cfg r).updateCalls = [] ∧
    (serveSchema ops cfg r).resp =
      (serveSchema ops cfg { method := "GET", body := r.body }).resp ∧
    (serveSchema ops cfg r).cfg = cfg := by
  cases h : ops.schemaDoc <;>
    simp [serveConfig, serveSchema, h1, h2, h3, h]

/-- C5 witness: a DELETE on the configuration route at `exOps` is
rejected with `405` and an empty body. -/
theorem method_not_allowed_witness :
    (serveConfig exOps 5 { method := "DELETE", body := "" }).resp =
      { status := some 405, body := "" } :=
  (method_not_allowed_config_route_only exOps 5
    { method := "DELETE", body := "" }
    (by decide) (by decide) (by decide)).1

/-- C6: marshalling failures on GET, schema-marshalling failures, and
`Update` failures on POST each produce a `500 Internal Server Error`
response carrying the underlying error message in the body and a
warning-level log entry; every such failure still resolves to an HTTP
response (the handler functions are total), so the endpoint remains
serviceable. -/
theorem server_side_errors_logged_and_surfaced {α : Type} (ops : ConfigOps α)
    (cfg v : α) (body em es eu : String)
    (hm : ops.marshal cfg = Except.error em)
    (hs : ops.schemaDoc = Except.error es)
    (hd : ops.decode (ops.createNew cfg) body = Except.ok v)
    (hv : ops.validate v = none)
    (hu : (ops.update cfg v).2 = some eu) :
    ((serveConfig ops cfg { method := "GET", body := body }).resp =
        httpError ("failed to marshal config: " ++ em) 500 ∧
      (serveConfig ops cfg { method := "GET", body := body }).logs =
        [LogEntry.warn ("failed to marshal config: " ++ em)]) ∧
    ((serveSchema ops cfg { method := "GET", body := body }).resp =
        httpError ("failed to marshal schema: " ++ es) 500 ∧
      (serveSchema ops cfg { method := "GET", body := body }).logs =
        [LogEntry.warn ("failed to marshal schema: " ++ es)]) ∧
    ((serveConfig ops cfg { method := "POST", body := body }).resp =
        httpError ("failed to update config: " ++ eu) 500 ∧
      (serveConfig ops cfg { method := "POST", body := body }).logs =
        [LogEntry.warn ("failed to update config: " ++ eu)]) := by
  rcases hup : ops.update cfg v with ⟨c', err⟩
  rw [hup] at hu
  simp only [] at hu
  subst hu
  refine ⟨⟨?_, ?_⟩, ⟨?_, ?_⟩, ⟨?_, ?_⟩⟩ <;>
    simp [serveConfig, serveSchema, hm, hs, hd, hv, hup]

/-- C6 witness: at `exErrOps` (whose marshalling, schema marshalling and
`Update` all fail) with live value `5` and an empty body, the GET path
yields the `500` marshalling error. -/
theorem server_side_errors_witness :
    (serveConfig exErrOps 5 { method := "GET", body := "" }).resp =
      httpError ("failed to marshal config: " ++ "merr") 500 ∧
    (serveConfig exErrOps 5 { method := "POST", body := "" }).resp =
      httpError ("failed to update config: " ++ "uerr") 500 :=
  ⟨(server_side_errors_logged_and_surfaced exErrOps 5 4 "" "merr" "serr" "uerr"
      rfl rfl rfl rfl rfl).1.1,
   (server_side_errors_logged_and_surfaced exErrOps 5 4 "" "merr" "serr" "uerr"
      rfl rfl rfl rfl rfl).2.2.1⟩

/-- Step analysis for the state machine: assuming a failing `Update`
leaves the live value unchanged, each request either leaves the live
value as it was (committing nothing), or commits exactly the result of a
successful `Update` of a validated candidate. -/
theorem serveConfig_step_commit_or_noop {α : Type} (ops : ConfigOps α)
    (hat : ∀ c v e, (ops.update c v).2 = some e → (ops.update c v).1 = c)
    (c : α) (r : Request) :
    ((serveConfig ops c r).applied = none ∧ (serveConfig ops c r).cfg = c) ∨
    (∃ v, ops.validate v = none ∧
      ops.update c v = ((serveConfig ops c r).cfg, none) ∧
      (serveConfig ops c r).applied = some ((serveConfig ops c r).cfg)) := by
  by_cases hg : r.method = "GET"
  · rcases hmm : ops.marshal c with e | bts <;>
      exact Or.inl (by simp [serveConfig, hg, hmm])
  · by_cases hp : r.method = "POST"
    · rcases hd : ops.decode (ops.createNew c) r.body with e | v
      · exact Or.inl (by simp [serveConfig, hg, hp, hd])
      · rcases hv : ops.validate v with _ | e
        · rcases hu : ops.update c v with ⟨c', err⟩
          cases err with
          | some e2 =>
              refine Or.inl ⟨by simp [serveConfig, hg, hp, hd, hv, hu], ?_⟩
              have hc : c' = c := by
                have h := hat c v e2 (by rw [hu])
                rw [hu] at h
                exact h
              simp [serveConfig, hg, hp, hd, hv, hu, hc]
          | none =>
              refine Or.inr ⟨v, hv, ?_, ?_⟩
              · simp [serveConfig, hg, hp, hd, hv, hu]
              · simp [serveConfig, hg, hp, hd, hv, hu]
        · exact Or.inl (by simp [serveConfig, hg, hp, hd, hv])
    · by_cases ho : r.method = "OPTIONS"
      · exact Or.inl (by simp [serveConfig, hg, hp, ho])
      · exact Or.inl (by simp [serveConfig, hg, hp, ho])

/-- Fold invariant behind the state-machine theorem: along any request
sequence, the live value equals the last committed value (or the given
fallback when nothing was committed yet), and every committed value is
the result of a successful `Update` of a validated candidate. -/
theorem run_inv {α : Type} (ops : ConfigOps α)
    (hat : ∀ c v e, (ops.update c v).2 = some e → (ops.update c v).1 = c)
    (init : α) :
    ∀ (rs : List Request) (p : α × List α),
      p.1 = (p.2.getLast?).getD init →
      (∀ a ∈ p.2, ∃ c v, ops.validate v = none ∧ ops.update c v = (a, none)) →
      (rs.foldl (runStep ops) p).1 =
        (((rs.foldl (runStep ops) p).2).getLast?).getD init ∧
      ∀ a ∈ (rs.foldl (runStep ops) p).2,
        ∃ c v, ops.validate v = none ∧ ops.update c v = (a, none) := by
  intro rs
  induction rs with
  | nil =>
      intro p h1 h2
      exact ⟨h1, h2⟩
  | cons r rs ih =>
      intro p h1 h2
      rw [List.foldl_cons]
      rcases serveConfig_step_commit_or_noop ops hat p.1 r with
        ⟨ha, hc⟩ | ⟨v, hv, hu, ha⟩
      · have hstep : runStep ops p r = p := by
          simp [runStep, ha, hc]
        rw [hstep]
        exact ih p h1 h2
      · have hstep : runStep ops p r =
            ((serveConfig ops p.1 r).cfg,
              p.2 ++ [(serveConfig ops p.1 r).cfg]) := by
          simp [runStep, ha]
        rw [hstep]
        apply ih
        · simp
        · intro a hmem
          rcases List.mem_append.mp hmem with hmem | hmem
          · exact h2 a hmem
          · have hacfg : a = (serveConfig ops p.1 r).cfg := by
              simpa using hmem
            exact ⟨p.1, v, hv, by rw [hu, hacfg]⟩

/-- C3 counterexample: with the collaborator `exBadOps`, whose `Update`
mutates the live value to `99` and then reports failure (legal under the
interface), the one-request sequence POST `"x"` is reachable, commits
nothing (the trace of successfully applied values is empty), and leaves
the live value at `99` — which is neither the initial value `5` nor any
successfully validated-and-applied value. -/
theorem live_value_invariant_counterexample :
    (run exBadOps 5 [{ method := "POST", body := "x" }]).1 = 99 ∧
    (run exBadOps 5 [{ method := "POST", body := "x" }]).2 = [] ∧
    (99 : Nat) ≠ 5 := by
  refine ⟨rfl, rfl, ?_⟩
  decide

/-- C3 amended: provided a failing `Update` leaves the live value
unchanged (atomic commit — the source leaves a failing `Update`'s effect
collaborator-defined), then after any sequence of requests, served one at
a time, the live configuration value is the last successfully
validated-and-applied value, or the initial value when nothing was ever
applied; every value in the applied trace is the result of a successful
`Update` of a candidate that passed `Validate`, so a GET (which reads the
live value as-is) never observes anything else. -/
theorem live_value_is_initial_or_last_commit {α : Type} (ops : ConfigOps α)
    (hat : ∀ c v e, (ops.update c v).2 = some e → (ops.update c v).1 = c)
    (init : α) (rs : List Request) :
    (run ops init rs).1 = (((run ops init rs).2).getLast?).getD init ∧
    ∀ a ∈ (run ops init rs).2,
      ∃ c v, ops.validate v = none ∧ ops.update c v = (a, none) :=
  run_inv ops hat init rs (init, []) rfl (by simp)

/-- C3 witness: at `exOps` (whose `Update` never fails, hence atomic),
after the sequence [POST `"xx"`, POST `"bad"`] the live value `2` is the
last committed value. -/
theorem live_value_invariant_witness :
    (run exOps 5 [{ method := "POST", body := "xx" },
        { method := "POST", body := "bad" }]).1 =
      (((run exOps 5 [{ method := "POST", body := "xx" },
          { method := "POST", body := "bad" }]).2).getLast?).getD 5 :=
  (live_value_is_initial_or_last_commit exOps
    (fun _ _ _ h => Option.noConfusion h) 5
    [{ method := "POST", body := "xx" },
     { method := "POST", body := "bad" }]).1
